import Mathlib

/-!
Shallow embedding of `src/DDSPreview.py` (the DDS preview plugin
widget and plugin classes) and proofs of specification claims about it.

The module-level GLSL shader source strings of the Python file are
represented as distinct constructors of an inductive type
(`ShaderSource`): the claims concern which of the distinct module-level
shader constants is selected and attached, never the GLSL text itself.

Stateful Qt/OpenGL code is embedded as functions that return the
successor widget state together with an ordered trace of the externally
visible calls (shader attachment, draw calls, blend-state changes,
resource creation and destruction, logging), in the order the Python
statements execute them.
-/

namespace DDSPreview

/-- The distinct module-level shader source constants of `DDSPreview.py`
(lines 17-138): two vertex shaders, four texture fragment shaders and the
checkerboard-transparency vertex/fragment pair. -/
inductive ShaderSource
  | vertexShader2D
  | vertexShaderCube
  | fragmentShaderFloat
  | fragmentShaderUInt
  | fragmentShaderSInt
  | fragmentShaderCube
  | transparencyVS
  | transparencyFS
  deriving DecidableEq, Repr

/-- The module-level `vertices` list (lines 140-149): six vertices of two
textured triangles, each vertex 4 position floats + 2 texture-coordinate
floats. All literals are exact dyadic rationals, so ℚ models them exactly. -/
def vertices : List ℚ :=
  [-1, -1, 1/2, 1, 0, 1,
   -1, 1, 1/2, 1, 0, 0,
   1, 1, 1/2, 1, 1, 0,
   -1, -1, 1/2, 1, 0, 1,
   1, 1, 1/2, 1, 1, 0,
   1, -1, 1/2, 1, 1, 1]

/-- The `glFormat` attribute of a loaded `DDS.DDSFile`: the widget code
only reads its `samplerType` string (compared against "F" and "UI"). -/
structure GLFormat where
  samplerType : String
  deriving DecidableEq, Repr

/-- The attributes of a loaded `DDS.DDSFile` that `DDSWidget` reads, plus
attributes irrelevant to shader selection (dimensions, mip count, channel
masks, raw contents) carried to state noninterference claims. -/
structure DDSFileData where
  isCubemap : Bool
  glFormat : GLFormat
  width : Nat
  height : Nat
  mipCount : Nat
  channelMasks : List Nat
  contents : List Nat
  deriving DecidableEq, Repr

/-- The two `QOpenGLShaderProgram` objects of the widget. -/
inductive ProgramId
  | mainProgram
  | transparencyProg
  deriving DecidableEq, Repr

/-- Shader type bit passed to `addShaderFromSourceCode`. -/
inductive ShaderKind
  | vertex
  | fragment
  deriving DecidableEq, Repr

/-- `QColor` as constructed by `QColor(r, g, b, a)`: Qt keeps the channel
values and marks the colour invalid when any channel is outside 0..255. -/
structure QColor where
  r : Int
  g : Int
  b : Int
  a : Int
  valid : Bool
  deriving DecidableEq, Repr

/-- The `QColor(int, int, int, int)` constructor: `setRgb` invalidates the
colour when any channel lies outside the range 0..255. -/
def mkQColor (r g b a : Int) : QColor :=
  if 0 ≤ r ∧ r ≤ 255 ∧ 0 ≤ g ∧ g ≤ 255 ∧ 0 ≤ b ∧ b ≤ 255 ∧ 0 ≤ a ∧ a ≤ 255 then
    ⟨r, g, b, a, true⟩
  else
    ⟨0, 0, 0, 255, false⟩

/-- Python truthiness of a PyQt `QColor` object: the class defines neither
a bool conversion nor a length, so every `QColor` instance is truthy. -/
def qcolorTruthy (_ : QColor) : Bool := true

/-- GL_TRIANGLES primitive mode constant (0x0004). -/
def GLTriangles : Nat := 4

/-- Externally visible calls made by the embedded methods, in Python
statement order. One type covers both the plugin (`genFilePreview`) and
the widget (`initializeGL`, `paintGL`, `cleanup`) so that cross-phase
claims (for example: no GPU texture before decode succeeds) are statable
over a single trace vocabulary. -/
inductive Event
  | constructDDSFile (fileName : String)
  | loadDDSFile
  | createLayout
  | addLabelWidget
  | constructDDSWidget (debugContext : Bool)
  | addDDSWidget
  | addColourButton
  | addTransparencyButton
  | createContainerWidget
  | setFormatDebugContext
  | createDebugLogger
  | loggerInitialize
  | loggerConnectSlot
  | loggerStartLogging
  | connectContextCleanup
  | enableSeamlessCubemap
  | addShader (p : ProgramId) (k : ShaderKind) (s : ShaderSource)
  | bindAttributeLocation (p : ProgramId) (attr : String) (loc : Nat)
  | linkProgram (p : ProgramId)
  | createVAO
  | bindVAO
  | createVBO
  | bindVBO
  | allocateVBO (byteCount : Nat)
  | enableVertexAttribArray (index : Nat)
  | vertexAttribPointer (index size stride offset : Nat)
  | createTexture
  | bindProgram (p : ProgramId)
  | releaseProgram (p : ProgramId)
  | setUniformBackgroundColour (c : QColor)
  | drawArrays (mode first count : Nat)
  | enableBlend
  | blendFuncSrcAlphaOneMinusSrcAlpha
  | disableBlend
  | bindTexture
  | releaseTexture
  | makeCurrent
  | doneCurrent
  | destroyTexture
  | destroyVBO
  | destroyVAO
  | qDebugMessage (text : String)
  | spawnThread
  deriving DecidableEq, Repr

/-- Python-level errors the embedded code can raise. -/
inductive PyError
  | attributeError (typeName attr : String)
  deriving DecidableEq, Repr

/-- Decode-time failures raised by `DDSFile.load` (the decoder lives in
`DDS/DDSFile.py`, outside the widget module; only its failure/success
outcome matters to the claims about this module). -/
inductive DecodeError
  | badMagic
  | truncated
  | unsupportedFormat
  deriving DecidableEq, Repr

/-- The mutable attributes of a `DDSWidget` instance set in `__init__`
(lines 156-177) and mutated by `initializeGL` and `cleanup`. Resource
handles are `Option Unit`: `none` is Python `None`, `some ()` a live
Qt/GL object. -/
structure WidgetState where
  ddsFile : DDSFileData
  clean : Bool
  logger : Option Unit
  program : Option (ShaderSource × ShaderSource)
  transparecyProgram : Option Unit
  texture : Option Unit
  vbo : Option Unit
  vao : Option Unit
  deriving DecidableEq, Repr

/-- `DDSWidget.__init__` (lines 156-177): records the file, marks the
widget clean with all GL attributes `None`, and, when `debugContext` is
set, requests a debug-context surface format and creates a
`QOpenGLDebugLogger`. -/
def ddsWidgetInit (ddsFile : DDSFileData) (debugContext : Bool) :
    WidgetState × List Event :=
  ({ ddsFile := ddsFile
     clean := true
     logger := if debugContext then some () else none
     program := none
     transparecyProgram := none
     texture := none
     vbo := none
     vao := none },
   if debugContext then [Event.setFormatDebugContext, Event.createDebugLogger] else [])

/-- `DDSWidget.initializeGL` (lines 185-240): starts the debug logger when
one was created, connects context teardown to `cleanup`, clears the
`clean` flag, selects the vertex/fragment shader pair from the file's
`isCubemap` flag and `glFormat.samplerType`, builds and links both shader
programs, creates and fills the vertex buffer, and finally uploads the
decoded file as a GL texture. `hasSeamlessExt` is whether the current
context reports the `GL_ARB_seamless_cube_map` extension. -/
def initializeGL (s : WidgetState) (hasSeamlessExt : Bool) :
    WidgetState × List Event :=
  let loggerEvs :=
    if s.logger.isSome then
      [Event.loggerInitialize, Event.loggerConnectSlot, Event.loggerStartLogging]
    else []
  let selection :=
    if s.ddsFile.isCubemap then
      ((ShaderSource.vertexShaderCube, ShaderSource.fragmentShaderCube),
        if hasSeamlessExt then [Event.enableSeamlessCubemap] else [])
    else if s.ddsFile.glFormat.samplerType == "F" then
      ((ShaderSource.vertexShader2D, ShaderSource.fragmentShaderFloat), [])
    else if s.ddsFile.glFormat.samplerType == "UI" then
      ((ShaderSource.vertexShader2D, ShaderSource.fragmentShaderUInt), [])
    else
      ((ShaderSource.vertexShader2D, ShaderSource.fragmentShaderSInt), [])
  let vertexShader := selection.1.1
  let fragmentShader := selection.1.2
  ({ s with
      clean := false
      program := some (vertexShader, fragmentShader)
      transparecyProgram := some ()
      texture := some ()
      vbo := some ()
      vao := some () },
   loggerEvs ++ [Event.connectContextCleanup] ++ selection.2 ++
   [Event.addShader ProgramId.mainProgram ShaderKind.vertex vertexShader,
    Event.addShader ProgramId.mainProgram ShaderKind.fragment fragmentShader,
    Event.bindAttributeLocation ProgramId.mainProgram "position" 0,
    Event.bindAttributeLocation ProgramId.mainProgram "texCoordIn" 1,
    Event.linkProgram ProgramId.mainProgram,
    Event.addShader ProgramId.transparencyProg ShaderKind.vertex ShaderSource.transparencyVS,
    Event.addShader ProgramId.transparencyProg ShaderKind.fragment ShaderSource.transparencyFS,
    Event.bindAttributeLocation ProgramId.transparencyProg "position" 0,
    Event.linkProgram ProgramId.transparencyProg,
    Event.createVAO, Event.bindVAO,
    Event.createVBO, Event.bindVBO,
    Event.allocateVBO (4 * vertices.length),
    Event.enableVertexAttribArray 0,
    Event.enableVertexAttribArray 1,
    Event.vertexAttribPointer 0 4 (6 * 4) 0,
    Event.vertexAttribPointer 1 2 (6 * 4) (4 * 4),
    Event.createTexture])

/-- `DDSPreview.getBackgroundColour` (lines 404-406): builds a `QColor`
from the four host-persisted background channel settings. -/
def getBackgroundColour (r g b a : Int) : QColor := mkQColor r g b a

/-- `DDSWidget.paintGL` (lines 251-282): binds the VAO, draws the
checkerboard pass with the transparency program (updating its
`backgroundColour` uniform only for a truthy, valid colour), then draws
the texture pass with the format-selected program, enabling
SRC_ALPHA/ONE_MINUS_SRC_ALPHA blending exactly when the host-stored
transparency setting reads true. `textureLoaded` is whether
`self.texture` is non-`None`; `transparency` is the value
`self.ddsPreview.getTransparency()` reads from the host. -/
def paintGL (textureLoaded transparency : Bool) (bg : QColor) : List Event :=
  [Event.bindVAO, Event.bindProgram ProgramId.transparencyProg] ++
  (if qcolorTruthy bg && bg.valid then [Event.setUniformBackgroundColour bg] else []) ++
  [Event.drawArrays GLTriangles 0 6,
   Event.releaseProgram ProgramId.transparencyProg,
   Event.bindProgram ProgramId.mainProgram] ++
  (if textureLoaded then [Event.bindTexture] else []) ++
  (if transparency then [Event.enableBlend, Event.blendFuncSrcAlphaOneMinusSrcAlpha]
   else [Event.disableBlend]) ++
  [Event.drawArrays GLTriangles 0 6] ++
  (if textureLoaded then [Event.releaseTexture] else []) ++
  [Event.releaseProgram ProgramId.mainProgram]

/-- `DDSWidget.cleanup` (lines 284-299): when not already clean, makes the
context current, drops both programs, destroys the texture if present,
destroys the vertex buffer and vertex array object, clears all handles,
releases the context and sets the `clean` flag. When `clean` is already
set the body is skipped entirely. A `None` vbo/vao would raise
`AttributeError` mid-way (Python mutates in place up to the raise); the
partial state and the error are returned faithfully. -/
def cleanup (s : WidgetState) : WidgetState × List Event × Option PyError :=
  if s.clean then (s, [], none)
  else
    let texEvs := if s.texture.isSome then [Event.destroyTexture] else []
    let s1 := { s with program := none, transparecyProgram := none, texture := none }
    match s.vbo with
    | none => (s1, [Event.makeCurrent] ++ texEvs, some (PyError.attributeError "NoneType" "destroy"))
    | some _ =>
      let s2 := { s1 with vbo := none }
      match s.vao with
      | none =>
          (s2, [Event.makeCurrent] ++ texEvs ++ [Event.destroyVBO],
           some (PyError.attributeError "NoneType" "destroy"))
      | some _ =>
          ({ s2 with vao := none, clean := true },
           [Event.makeCurrent] ++ texEvs ++
             [Event.destroyVBO, Event.destroyVAO, Event.doneCurrent],
           none)

/-- `DDSWidget.__del__` (lines 179-180): delegates to `cleanup`. -/
def ddsWidgetDel (s : WidgetState) : WidgetState × List Event × Option PyError :=
  cleanup s

/-- `DDSWidget.__dtor__` (lines 182-183): delegates to `cleanup`. -/
def ddsWidgetDtor (s : WidgetState) : WidgetState × List Event × Option PyError :=
  cleanup s

/-- `QCoreApplication.translate` with no installed translator (both `tr`
methods, lines 301-302 and 365-366): the identity on the source text. -/
def tr (text : String) : String := text

/-- The methods the Python `str` type defines (the subset relevant to the
attribute lookups this module performs). Python `str` has `format`;
it has no method named `fomat`. -/
def strMethods : List String :=
  ["format", "format_map", "join", "replace", "split", "strip", "upper", "lower"]

/-- Python `str.format` with one positional argument, as used on the
template `"OpenGL debug message: {0}"`. -/
def strFormatOne (template arg : String) : String :=
  template.replace "{0}" arg

/-- The slot connected to `logger.messageLogged` (lines 188-189): it
evaluates `self.tr("OpenGL debug message: {0}").fomat(message.message())`
and passes the result to `qDebug`. Attribute lookup on the translated
`str` happens first; a missing method raises `AttributeError` before
`qDebug` can run. -/
def loggerMessageSlot (messageText : String) : List Event × Option PyError :=
  let template := tr "OpenGL debug message: {0}"
  if "fomat" ∈ strMethods then
    ([Event.qDebugMessage (strFormatOne template messageText)], none)
  else
    ([], some (PyError.attributeError "str" "fomat"))

/-- Host-persisted plugin setting values are booleans or integers here. -/
inductive SettingValue
  | b (v : Bool)
  | i (v : Int)
  deriving DecidableEq, Repr

/-- One `mobase.PluginSetting(name, description, default)` record. -/
structure PluginSetting where
  name : String
  description : String
  defaultValue : SettingValue
  deriving DecidableEq, Repr

/-- `DDSPreview.settings` (lines 333-340): the list of host-persisted
settings the plugin declares. -/
def settings : List PluginSetting :=
  [⟨ "log gl errors",
     tr "If enabled, log OpenGL errors and debug messages. May decrease performance.",
     SettingValue.b false⟩,
   ⟨ "background r", tr "Red channel of background colour", SettingValue.i 0⟩,
   ⟨ "background g", tr "Green channel of background colour", SettingValue.i 0⟩,
   ⟨ "background b", tr "Blue channel of background colour", SettingValue.i 0⟩,
   ⟨ "background a", tr "Alpha channel of background colour", SettingValue.i 0⟩,
   ⟨ "transparency", tr "If enabled, transparency will be displayed.", SettingValue.b true⟩]

/-- `DDSPreview.getTransparency` (lines 408-409): reads the host-stored
"transparency" setting back unchanged. -/
def getTransparency (stored : Bool) : Bool := stored

/-- `DDSPreview.genFilePreview` (lines 345-363), parameterised by the
outcome of `DDSFile.load` (the decoder is the external `DDS` package; a
raised decode error propagates out of `genFilePreview` immediately).
On success it builds the grid layout, the description label, the
`DDSWidget` (passing the "log gl errors" setting as the debug-context
flag), the two buttons, and the container widget, all synchronously on
the calling thread. Returns the outcome and the ordered call trace. -/
def genFilePreview (fileName : String)
    (loadResult : Except DecodeError DDSFileData) (logGlErrors : Bool) :
    Except DecodeError (WidgetState × List PluginSetting) × List Event :=
  match loadResult with
  | Except.error e =>
      (Except.error e, [Event.constructDDSFile fileName, Event.loadDDSFile])
  | Except.ok f =>
      let widget := ddsWidgetInit f logGlErrors
      (Except.ok (widget.1, settings),
       [Event.constructDDSFile fileName, Event.loadDDSFile,
        Event.createLayout, Event.addLabelWidget] ++
       widget.2 ++
       [Event.constructDDSWidget logGlErrors, Event.addDDSWidget,
        Event.addColourButton, Event.addTransparencyButton,
        Event.createContainerWidget])

/-- The shader-variant tags named by the specification. -/
inductive ShaderVariant
  | Float2D
  | UInt2D
  | SInt2D
  | Cubemap
  deriving DecidableEq, Repr

/-- Modelled from the spec: the tag-selection rule as the claims state
it — the Cubemap tag whenever `isCubemap` is set, regardless of sampler
kind; otherwise `Float2D` for sampler type "F", `UInt2D` for "UI", and
`SInt2D` for everything else. -/
def specShaderVariant (isCubemap : Bool) (samplerType : String) : ShaderVariant :=
  if isCubemap then ShaderVariant.Cubemap
  else if samplerType = "F" then ShaderVariant.Float2D
  else if samplerType = "UI" then ShaderVariant.UInt2D
  else ShaderVariant.SInt2D

/-- Modelled from the spec: the vertex/fragment source pair each
shader-variant tag denotes — the cubemap pair for `Cubemap`, otherwise
the 2D vertex shader with the float-, unsigned-integer- or
signed-integer-sampler fragment shader. -/
def variantShaderPair : ShaderVariant → ShaderSource × ShaderSource
  | ShaderVariant.Float2D => (ShaderSource.vertexShader2D, ShaderSource.fragmentShaderFloat)
  | ShaderVariant.UInt2D => (ShaderSource.vertexShader2D, ShaderSource.fragmentShaderUInt)
  | ShaderVariant.SInt2D => (ShaderSource.vertexShader2D, ShaderSource.fragmentShaderSInt)
  | ShaderVariant.Cubemap => (ShaderSource.vertexShaderCube, ShaderSource.fragmentShaderCube)

/-- The shader sources attached to the main program in a trace, in
attachment order. -/
def mainProgramShaders (evs : List Event) : List (ShaderKind × ShaderSource) :=
  evs.filterMap fun e =>
    match e with
    | Event.addShader ProgramId.mainProgram k src => some (k, src)
    | _ => none

/-- The draw calls of a trace, in order. -/
def drawCalls (evs : List Event) : List (Nat × Nat × Nat) :=
  evs.filterMap fun e =>
    match e with
    | Event.drawArrays mode first count => some (mode, first, count)
    | _ => none

/-- The program bound at each draw call: folds over the trace tracking
the most recent `bindProgram`/`releaseProgram`, recording the currently
bound program at every `drawArrays`. -/
def boundProgramAtDraws (evs : List Event) : List (Option ProgramId) :=
  (evs.foldl (fun acc e =>
    match e with
    | Event.bindProgram p => (some p, acc.2)
    | Event.releaseProgram _ => (none, acc.2)
    | Event.drawArrays _ _ _ => (acc.1, acc.2 ++ [acc.1])
    | _ => acc) ((none : Option ProgramId), ([] : List (Option ProgramId)))).2

/-- The vertex/fragment pair `initializeGL` selects (lines 197-210),
factored out for reuse across lemmas. -/
def selectedPair (isCubemap : Bool) (samplerType : String) :
    ShaderSource × ShaderSource :=
  if isCubemap then (ShaderSource.vertexShaderCube, ShaderSource.fragmentShaderCube)
  else if samplerType == "F" then (ShaderSource.vertexShader2D, ShaderSource.fragmentShaderFloat)
  else if samplerType == "UI" then (ShaderSource.vertexShader2D, ShaderSource.fragmentShaderUInt)
  else (ShaderSource.vertexShader2D, ShaderSource.fragmentShaderSInt)

lemma mainProgramShaders_initializeGL (s : WidgetState) (ext : Bool) :
    mainProgramShaders (initializeGL s ext).2 =
      [(ShaderKind.vertex, (selectedPair s.ddsFile.isCubemap s.ddsFile.glFormat.samplerType).1),
       (ShaderKind.fragment, (selectedPair s.ddsFile.isCubemap s.ddsFile.glFormat.samplerType).2)] := by
  rcases s with ⟨⟨cube, ⟨st⟩, w, h, m, cm, c⟩, clean, logger, pr, tp, tx, vb, va⟩
  cases cube <;> cases ext <;> rcases logger with _ | ⟨⟨⟩⟩ <;>
    by_cases hF : st = "F" <;> by_cases hU : st = "UI" <;>
      simp [initializeGL, mainProgramShaders, selectedPair, hF, hU]

lemma selectedPair_eq_variant (isCubemap : Bool) (samplerType : String) :
    selectedPair isCubemap samplerType =
      variantShaderPair (specShaderVariant isCubemap samplerType) := by
  cases isCubemap <;> by_cases hF : samplerType = "F" <;>
    by_cases hU : samplerType = "UI" <;>
      simp [selectedPair, specShaderVariant, variantShaderPair, hF, hU]

/-- C1: GL initialization attaches to the texture shader program exactly
one vertex/fragment pair, the one denoted by one of the four variant tags
Float2D, UInt2D, SInt2D, Cubemap, chosen solely from the loaded file's
`isCubemap` flag and its format's `samplerType`: the cubemap pair when
`isCubemap` is set regardless of sampler kind, otherwise the 2D vertex
shader with the float-sampler fragment shader for "F", the
unsigned-integer-sampler fragment shader for "UI", and the
signed-integer-sampler fragment shader for anything else. -/
theorem initializeGL_selects_one_variant (s : WidgetState) (hasSeamlessExt : Bool) :
    mainProgramShaders (initializeGL s hasSeamlessExt).2 =
      [(ShaderKind.vertex,
        (variantShaderPair (specShaderVariant s.ddsFile.isCubemap
          s.ddsFile.glFormat.samplerType)).1),
       (ShaderKind.fragment,
        (variantShaderPair (specShaderVariant s.ddsFile.isCubemap
          s.ddsFile.glFormat.samplerType)).2)] := by
  rw [mainProgramShaders_initializeGL, selectedPair_eq_variant]

/-- C4: shader selection is a deterministic function of exactly the
`isCubemap` flag and `glFormat.samplerType`: two widgets whose files agree
on those two inputs get the identical vertex/fragment shader attachments
at GL initialization, whatever their dimensions, mip counts, channel
masks, file contents, other widget state, or the context's extension set. -/
theorem shader_selection_noninterference (s₁ s₂ : WidgetState) (e₁ e₂ : Bool)
    (hc : s₁.ddsFile.isCubemap = s₂.ddsFile.isCubemap)
    (hs : s₁.ddsFile.glFormat.samplerType = s₂.ddsFile.glFormat.samplerType) :
    mainProgramShaders (initializeGL s₁ e₁).2 =
      mainProgramShaders (initializeGL s₂ e₂).2 := by
  rw [mainProgramShaders_initializeGL, mainProgramShaders_initializeGL, hc, hs]

/-- A sample decoded file used to instantiate hypothesised theorems. -/
def sampleFile : DDSFileData :=
  { isCubemap := false
    glFormat := { samplerType := "F" }
    width := 16
    height := 16
    mipCount := 5
    channelMasks := [255]
    contents := [0, 1, 2, 3] }

/-- A second sample file agreeing with `sampleFile` on `isCubemap` and
`samplerType` but differing in every other attribute. -/
def sampleFileB : DDSFileData :=
  { isCubemap := false
    glFormat := { samplerType := "F" }
    width := 4
    height := 2
    mipCount := 1
    channelMasks := [7, 56]
    contents := [9] }

theorem shader_selection_noninterference_witness :
    (ddsWidgetInit sampleFile false).1.ddsFile.isCubemap =
        (ddsWidgetInit sampleFileB true).1.ddsFile.isCubemap ∧
    (ddsWidgetInit sampleFile false).1.ddsFile.glFormat.samplerType =
        (ddsWidgetInit sampleFileB true).1.ddsFile.glFormat.samplerType ∧
    mainProgramShaders (initializeGL (ddsWidgetInit sampleFile false).1 false).2 =
      mainProgramShaders (initializeGL (ddsWidgetInit sampleFileB true).1 true).2 :=
  ⟨rfl, rfl,
   shader_selection_noninterference (ddsWidgetInit sampleFile false).1
     (ddsWidgetInit sampleFileB true).1 false true rfl rfl⟩

/-- C5: every paint issues exactly two `glDrawArrays(GL_TRIANGLES, 0, 6)`
calls over the six-vertex two-triangle quad (the module `vertices` list
holds 6 vertices of 6 floats each), in a fixed order: the first draw with
the checkerboard transparency program bound, the second with the
format-selected texture program bound. -/
theorem paintGL_two_draws (textureLoaded transparency : Bool) (bg : QColor) :
    drawCalls (paintGL textureLoaded transparency bg) =
      [(GLTriangles, 0, 6), (GLTriangles, 0, 6)] ∧
    boundProgramAtDraws (paintGL textureLoaded transparency bg) =
      [some ProgramId.transparencyProg, some ProgramId.mainProgram] ∧
    vertices.length = 6 * 6 := by
  cases hv : bg.valid <;> cases textureLoaded <;> cases transparency <;>
    simp [paintGL, drawCalls, boundProgramAtDraws, qcolorTruthy, hv, vertices]

/-- C6: on every paint, the texture pass runs with
SRC_ALPHA/ONE_MINUS_SRC_ALPHA blending enabled exactly when the
host-stored transparency setting reads true at that paint, and with
blending explicitly disabled when it reads false; the blend-state change
immediately precedes the texture-pass draw call. -/
theorem paintGL_blend_iff (textureLoaded transparency : Bool) (bg : QColor) :
    ((Event.enableBlend ∈ paintGL textureLoaded transparency bg ∧
      Event.blendFuncSrcAlphaOneMinusSrcAlpha ∈ paintGL textureLoaded transparency bg) ↔
        getTransparency transparency = true) ∧
    (Event.disableBlend ∈ paintGL textureLoaded transparency bg ↔
        getTransparency transparency = false) ∧
    (∃ pre, paintGL textureLoaded transparency bg =
      pre ++
      (if getTransparency transparency then
        [Event.enableBlend, Event.blendFuncSrcAlphaOneMinusSrcAlpha]
       else [Event.disableBlend]) ++
      [Event.drawArrays GLTriangles 0 6] ++
      (if textureLoaded then [Event.releaseTexture] else []) ++
      [Event.releaseProgram ProgramId.mainProgram]) := by
  refine ⟨?_, ?_, ?_⟩
  · cases hv : bg.valid <;> cases textureLoaded <;> cases transparency <;>
      simp [paintGL, qcolorTruthy, getTransparency, hv]
  · cases hv : bg.valid <;> cases textureLoaded <;> cases transparency <;>
      simp [paintGL, qcolorTruthy, getTransparency, hv]
  · refine ⟨[Event.bindVAO, Event.bindProgram ProgramId.transparencyProg] ++
      (if qcolorTruthy bg && bg.valid then [Event.setUniformBackgroundColour bg] else []) ++
      [Event.drawArrays GLTriangles 0 6,
       Event.releaseProgram ProgramId.transparencyProg,
       Event.bindProgram ProgramId.mainProgram] ++
      (if textureLoaded then [Event.bindTexture] else []), ?_⟩
    cases hv : bg.valid <;> cases textureLoaded <;> cases transparency <;>
      simp [paintGL, qcolorTruthy, getTransparency, hv]

/-- C10: the checkerboard shader's `backgroundColour` uniform is assigned
during paint exactly when the `QColor` built from the four stored channel
settings is truthy and valid, which holds precisely when every channel
lies in 0..255; for any stored values producing an invalid colour no
uniform assignment happens at all, so invalid settings never reach the
shader. -/
theorem paintGL_uniform_only_valid (r g b a : Int) (textureLoaded transparency : Bool) :
    (Event.setUniformBackgroundColour (getBackgroundColour r g b a) ∈
        paintGL textureLoaded transparency (getBackgroundColour r g b a) ↔
      (getBackgroundColour r g b a).valid = true) ∧
    ((getBackgroundColour r g b a).valid = true ↔
      (0 ≤ r ∧ r ≤ 255 ∧ 0 ≤ g ∧ g ≤ 255 ∧ 0 ≤ b ∧ b ≤ 255 ∧ 0 ≤ a ∧ a ≤ 255)) ∧
    ((getBackgroundColour r g b a).valid = false →
      ∀ c, Event.setUniformBackgroundColour c ∉
        paintGL textureLoaded transparency (getBackgroundColour r g b a)) := by
  refine ⟨?_, ?_, ?_⟩
  · cases hv : (getBackgroundColour r g b a).valid <;>
      cases textureLoaded <;> cases transparency <;>
        simp [paintGL, qcolorTruthy, hv]
  · unfold getBackgroundColour mkQColor
    split <;> simp_all
  · intro hv c
    cases textureLoaded <;> cases transparency <;>
      simp [paintGL, qcolorTruthy, hv]

theorem paintGL_uniform_only_valid_witness :
    (getBackgroundColour 0 0 0 256).valid = false ∧
    ∀ c, Event.setUniformBackgroundColour c ∉
      paintGL true true (getBackgroundColour 0 0 0 256) :=
  ⟨by decide,
   (paintGL_uniform_only_valid 0 0 0 256 true true).2.2 (by decide)⟩

/-- C7: the plugin declares exactly six host-persisted settings — the
boolean "log gl errors" flag defaulting to false, four integer
background-colour channels each defaulting to 0, and the boolean
"transparency" flag defaulting to true — and the transparency value is
read back unchanged as an opaque render parameter. -/
theorem settings_surface :
    settings.length = 6 ∧
    settings.map (fun s => (s.name, s.defaultValue)) =
      [("log gl errors", SettingValue.b false),
       ("background r", SettingValue.i 0),
       ("background g", SettingValue.i 0),
       ("background b", SettingValue.i 0),
       ("background a", SettingValue.i 0),
       ("transparency", SettingValue.b true)] ∧
    (∀ stored : Bool, getTransparency stored = stored) ∧
    (∀ r g b a : Int, getBackgroundColour r g b a = mkQColor r g b a) :=
  ⟨rfl, rfl, fun _ => rfl, fun _ _ _ _ => rfl⟩

/-- C2: the DDS file is fully decoded before any widget or GPU resource
exists: when `DDSFile.load` fails, `genFilePreview` returns the error
having done nothing beyond constructing the file object and attempting the
load — no layout, no label, no `DDSWidget`, no texture; `genFilePreview`
itself never creates a GPU texture on any outcome, the texture being
created only inside the widget's GL initialization. -/
theorem genFilePreview_fail_fast (fileName : String) (e : DecodeError) (logGl : Bool) :
    (genFilePreview fileName (Except.error e) logGl).1 = Except.error e ∧
    (genFilePreview fileName (Except.error e) logGl).2 =
      [Event.constructDDSFile fileName, Event.loadDDSFile] ∧
    (∀ d, Event.constructDDSWidget d ∉ (genFilePreview fileName (Except.error e) logGl).2) ∧
    Event.createLayout ∉ (genFilePreview fileName (Except.error e) logGl).2 ∧
    Event.addLabelWidget ∉ (genFilePreview fileName (Except.error e) logGl).2 ∧
    (∀ res, Event.createTexture ∉ (genFilePreview fileName res logGl).2) ∧
    (∀ s ext, Event.createTexture ∈ (initializeGL s ext).2) := by
  refine ⟨rfl, rfl, by simp [genFilePreview], by simp [genFilePreview],
    by simp [genFilePreview], ?_, ?_⟩
  · intro res
    cases res with
    | error e' => simp [genFilePreview]
    | ok f => cases logGl <;> simp [genFilePreview, ddsWidgetInit]
  · intro s ext
    by_cases hl : s.logger.isSome <;> cases ext <;>
      cases hc : s.ddsFile.isCubemap <;> simp [initializeGL, hl, hc]

/-- C9: no core operation spawns a thread, suspends or offers
cancellation: `genFilePreview` performs the decode synchronously as its
first action on the calling thread, no trace ever contains a
thread-spawn, and the returned outcome is already the decode's success or
failure when control returns. -/
theorem genFilePreview_synchronous (fileName : String)
    (res : Except DecodeError DDSFileData) (logGl : Bool) :
    Event.spawnThread ∉ (genFilePreview fileName res logGl).2 ∧
    (genFilePreview fileName res logGl).2.take 2 =
      [Event.constructDDSFile fileName, Event.loadDDSFile] ∧
    (∀ e, (genFilePreview fileName (Except.error e) logGl).1 = Except.error e) ∧
    (∀ f, (genFilePreview fileName (Except.ok f) logGl).1 =
      Except.ok ((ddsWidgetInit f logGl).1, settings)) := by
  refine ⟨?_, ?_, fun _ => rfl, fun _ => rfl⟩
  · cases res with
    | error e' => simp [genFilePreview]
    | ok f => cases logGl <;> simp [genFilePreview, ddsWidgetInit]
  · cases res with
    | error e' => rfl
    | ok f => cases logGl <;> rfl

/-- C3: teardown is idempotent and releases each GPU resource exactly
once: on an initialized (not-clean) widget the first `cleanup` raises no
error, destroys the vertex buffer and vertex array object exactly once
and the texture exactly once when present, nulls all handles and sets the
`clean` flag; any subsequent `cleanup` — whether reached through
`__del__`, `__dtor__` or the context's about-to-be-destroyed signal —
observes the flag and changes nothing, so cleanup-after-cleanup equals a
single cleanup. -/
theorem cleanup_idempotent_release_once (s : WidgetState)
    (h : s.clean = false) (hb : s.vbo = some ()) (ha : s.vao = some ()) :
    (cleanup s).2.2 = none ∧
    (cleanup s).1.clean = true ∧
    (cleanup s).1.program = none ∧
    (cleanup s).1.transparecyProgram = none ∧
    (cleanup s).1.texture = none ∧
    (cleanup s).1.vbo = none ∧
    (cleanup s).1.vao = none ∧
    (cleanup s).2.1.count Event.destroyVBO = 1 ∧
    (cleanup s).2.1.count Event.destroyVAO = 1 ∧
    (cleanup s).2.1.count Event.destroyTexture =
      (if s.texture.isSome then 1 else 0) ∧
    cleanup (cleanup s).1 = ((cleanup s).1, [], none) ∧
    ddsWidgetDel (cleanup s).1 = ((cleanup s).1, [], none) ∧
    ddsWidgetDtor (cleanup s).1 = ((cleanup s).1, [], none) := by
  cases ht : s.texture <;>
    simp [cleanup, ddsWidgetDel, ddsWidgetDtor, h, hb, ha, ht, List.count_cons]

/-- A widget state as produced by a completed GL initialization, used to
instantiate the teardown theorem. -/
def initState : WidgetState :=
  (initializeGL (ddsWidgetInit sampleFile false).1 false).1

theorem cleanup_idempotent_release_once_witness :
    initState.clean = false ∧ initState.vbo = some () ∧ initState.vao = some () ∧
    ((cleanup initState).2.2 = none ∧
     (cleanup initState).1.clean = true ∧
     (cleanup initState).1.program = none ∧
     (cleanup initState).1.transparecyProgram = none ∧
     (cleanup initState).1.texture = none ∧
     (cleanup initState).1.vbo = none ∧
     (cleanup initState).1.vao = none ∧
     (cleanup initState).2.1.count Event.destroyVBO = 1 ∧
     (cleanup initState).2.1.count Event.destroyVAO = 1 ∧
     (cleanup initState).2.1.count Event.destroyTexture =
       (if initState.texture.isSome then 1 else 0) ∧
     cleanup (cleanup initState).1 = ((cleanup initState).1, [], none) ∧
     ddsWidgetDel (cleanup initState).1 = ((cleanup initState).1, [], none) ∧
     ddsWidgetDtor (cleanup initState).1 = ((cleanup initState).1, [], none)) :=
  ⟨rfl, rfl, rfl, cleanup_idempotent_release_once initState rfl rfl rfl⟩

/-- C8: with "log gl errors" enabled the widget does request a
debug-context format and create a debug logger (and creates neither when
disabled), but the message slot never emits anything via qDebug: the code
calls the nonexistent `str` method `fomat` (a typo for `format`), so every
received OpenGL debug message raises `AttributeError` before `qDebug`
runs, contradicting the documented logging behaviour. -/
theorem logger_fomat_attribute_error :
    (∀ msg, (loggerMessageSlot msg).2 =
      some (PyError.attributeError "str" "fomat")) ∧
    (∀ msg text, Event.qDebugMessage text ∉ (loggerMessageSlot msg).1) ∧
    (∀ f, (ddsWidgetInit f true).1.logger = some () ∧
      Event.setFormatDebugContext ∈ (ddsWidgetInit f true).2 ∧
      Event.createDebugLogger ∈ (ddsWidgetInit f true).2) ∧
    (∀ f, (ddsWidgetInit f false).1.logger = none ∧
      (ddsWidgetInit f false).2 = []) := by
  refine ⟨fun msg => ?_, fun msg text => ?_, fun f => ?_, fun f => ?_⟩
  · simp [loggerMessageSlot, strMethods]
  · simp [loggerMessageSlot, strMethods]
  · exact ⟨rfl, by simp [ddsWidgetInit], by simp [ddsWidgetInit]⟩
  · exact ⟨rfl, rfl⟩

end DDSPreview
